import Mathlib

/-!
Verification of the session resource registry and lifecycle coordinator of a
media-streaming signaling server (`server.js`).

The server keeps three process-wide registries, each a JavaScript object keyed
by match (session) identifier whose values are objects keyed by engine-assigned
resource identifier:

* `matchTransports` (line 16), `matchProducers` (line 17), `matchConsumers` (line 18).

JavaScript objects with non-integer-like string keys enumerate their properties
in insertion order, so each registry level is modelled as an insertion-ordered
association list.  Engine-assigned identifiers (mediasoup UUID strings) are
modelled as natural numbers drawn from a global counter `nextId` (mediasoup
identifiers are globally unique); they are never the empty string, so the
JavaScript falsy check on a present identifier field never fires and is not
modelled.  Match identifiers stay strings, and the `!matchId` falsy check is
modelled as a test for the empty string.

The media engine (mediasoup) is the external collaborator:

* `router.canConsume` is an opaque predicate `canC : Nat → Nat → Bool` over
  (producer id, capability descriptor), passed as a parameter;
* engine calls that create resources (`createWebRtcTransport`,
  `transport.produce`, `transport.consume`, `transport.connect`) may fail; each
  operation takes a Boolean `engineOk` describing the outcome of its single
  engine call.  Per the engine contract, an operation on an already-closed
  engine transport always fails (mediasoup `InvalidStateError`);
* `close()` on an engine object may throw; each close-path operation takes a
  `failSet` of resource identifiers whose engine close throws during that call.
  A throwing close has no engine-side effect;
* closing an engine transport synchronously fires the `"transportclose"` event
  on every producer and consumer created on it.  The server subscribes to this
  event at creation time (lines 105-110 for producers, 149-154 for consumers);
  the handler deletes the resource from its registry if still present.  That
  handler effect is folded into the transport-close steps below.
-/

set_option autoImplicit false

namespace FootballStreaming

/-- Insertion-ordered association-list lookup: models `obj[k]` on a JS object. -/
def getL {κ : Type} {α : Type} [DecidableEq κ] : List (κ × α) → κ → Option α
  | [], _ => none
  | (k', v) :: rest, k => if k' = k then some v else getL rest k

/-- Models `obj[k] = v` on a JS object: overwrite in place, else append at the end. -/
def updL {κ : Type} {α : Type} [DecidableEq κ] : List (κ × α) → κ → α → List (κ × α)
  | [], k, v => [(k, v)]
  | (k', v') :: rest, k, v =>
    if k' = k then (k, v) :: rest else (k', v') :: updL rest k v

/-- Models `delete obj[k]` on a JS object: remove the key, keep the others in order. -/
def eraseL {κ : Type} {α : Type} [DecidableEq κ] : List (κ × α) → κ → List (κ × α)
  | [], _ => []
  | (k', v) :: rest, k =>
    if k' = k then eraseL rest k else (k', v) :: eraseL rest k

/-- A nested registry: match identifier → resource identifier → handle. -/
abbrev Registry (α : Type) : Type := List (String × List (Nat × α))

/-- Models `reg[m]?.[i]` (optional chaining through both levels). -/
def get2 {α : Type} (reg : Registry α) (m : String) (i : Nat) : Option α :=
  (getL reg m).bind (fun inner => getL inner i)

/-- Models `if (!reg[m]) reg[m] = {}; reg[m][i] = v`. -/
def upd2 {α : Type} (reg : Registry α) (m : String) (i : Nat) (v : α) : Registry α :=
  updL reg m (updL ((getL reg m).getD []) i v)

/-- In-place mutation of the inner object at key `m`, when present. -/
def modifyInner {α : Type} (reg : Registry α) (m : String)
    (f : List (Nat × α) → List (Nat × α)) : Registry α :=
  match getL reg m with
  | none => reg
  | some inner => updL reg m (f inner)

/-- An engine WebRTC transport handle as retained by the registry.  The `closed`
flag is the engine-side closed state of the underlying object. -/
structure Transport where
  closed : Bool
deriving DecidableEq

/-- An engine producer handle: remembers the transport it was created on
(captured by the `"transportclose"` subscription, lines 105-110). -/
structure Producer where
  transportId : Nat
  closed : Bool
deriving DecidableEq

/-- An engine consumer handle: remembers its transport and the producer it
consumes (response field `producerId`, line 158). -/
structure Consumer where
  transportId : Nat
  producerId : Nat
  closed : Bool
deriving DecidableEq

/-- The server's whole mutable state: the three registries (lines 16-18) plus
the engine's identifier source. -/
structure ServerState where
  matchTransports : Registry Transport
  matchProducers : Registry Producer
  matchConsumers : Registry Consumer
  nextId : Nat
deriving DecidableEq

/-- State at process start: all three registries empty. -/
def initialState : ServerState :=
  { matchTransports := [], matchProducers := [], matchConsumers := [], nextId := 1 }

/-- Observable HTTP responses of the routes (status code plus payload shape). -/
inductive Resp where
  /-- 400, a required request field is missing or empty. -/
  | missingFields
  /-- 404 `"Transport not found"`. -/
  | transportNotFound
  /-- 404 `"No producer available"` (line 132). -/
  | noProducerAvailable
  /-- 400 `"Cannot consume this producer"` (line 139). -/
  | cannotConsume
  /-- 500 from a failed engine call on a create/connect/produce/consume path. -/
  | engineError
  /-- 500 from the catch block of a close-path route. -/
  | closeError
  /-- 200 `{ success: true }` (also the connect route's success payload). -/
  | success
  /-- 200 with the new transport's negotiation parameters (line 56). -/
  | transportCreated (id : Nat)
  /-- 200 `{ id: producer.id }` (line 112). -/
  | produced (id : Nat)
  /-- 200 with the consumer id and the consumed producer's id (lines 156-161). -/
  | consumed (id : Nat) (producerId : Nat)
  /-- 200 from the status route: `isActive` is `none` when the JavaScript value
  is `undefined`, `producerCount` as computed on line 177. -/
  | statusReport (isActive : Option Bool) (producerCount : Nat)
deriving DecidableEq

/-- The `isActive` component of a status response. -/
def Resp.reportedActive : Resp → Option Bool
  | .statusReport a _ => a
  | _ => none

/-- The `producerCount` component of a status response. -/
def Resp.reportedCount : Resp → Nat
  | .statusReport _ c => c
  | _ => 0

/-- Whether a response is a successful consume (a consumer handle was issued). -/
def Resp.isConsumed : Resp → Bool
  | .consumed _ _ => true
  | _ => false

/-- `POST /api/create-transport` (lines 41-68): reject an empty match id, ask
the engine for a transport, and register the handle only after the engine call
succeeded. -/
def createTransport (s : ServerState) (matchId : String) (engineOk : Bool) :
    ServerState × Resp :=
  if matchId = "" then (s, Resp.missingFields)
  else if engineOk then
    let tid := s.nextId
    ({ s with
        matchTransports := upd2 s.matchTransports matchId tid { closed := false },
        nextId := tid + 1 },
     Resp.transportCreated tid)
  else (s, Resp.engineError)

/-- `POST /api/connect-transport` (lines 71-85): look the transport up, then
delegate to the engine.  No registry mutation on any path; the engine rejects a
connect on a closed transport. -/
def connectTransport (s : ServerState) (matchId : String) (transportId : Nat)
    (engineOk : Bool) : ServerState × Resp :=
  if matchId = "" then (s, Resp.missingFields)
  else
    match get2 s.matchTransports matchId transportId with
    | none => (s, Resp.transportNotFound)
    | some tr =>
      if tr.closed then (s, Resp.engineError)
      else if engineOk then (s, Resp.success)
      else (s, Resp.engineError)

/-- `POST /api/produce` (lines 88-117): require the transport, delegate to the
engine (`transport.produce` fails on a closed transport), then register the
producer keyed by its fresh engine id.  The handle is recorded only after the
engine call succeeds. -/
def produce (s : ServerState) (matchId : String) (transportId : Nat)
    (engineOk : Bool) : ServerState × Resp :=
  if matchId = "" then (s, Resp.missingFields)
  else
    match get2 s.matchTransports matchId transportId with
    | none => (s, Resp.transportNotFound)
    | some tr =>
      if tr.closed then (s, Resp.engineError)
      else if engineOk then
        let pid := s.nextId
        ({ s with
            matchProducers :=
              upd2 s.matchProducers matchId pid { transportId := transportId, closed := false },
            nextId := pid + 1 },
         Resp.produced pid)
      else (s, Resp.engineError)

/-- `POST /api/consume` (lines 120-166): require the transport; take the FIRST
producer of the session in enumeration (= insertion) order, line 136; check
`router.canConsume` on that one producer only (line 138); only then attempt the
engine negotiation (which fails on a closed transport) and register the
consumer. -/
def consume (canC : Nat → Nat → Bool) (s : ServerState) (matchId : String)
    (transportId : Nat) (caps : Nat) (engineOk : Bool) : ServerState × Resp :=
  if matchId = "" then (s, Resp.missingFields)
  else
    match get2 s.matchTransports matchId transportId with
    | none => (s, Resp.transportNotFound)
    | some tr =>
      match (getL s.matchProducers matchId).getD [] with
      | [] => (s, Resp.noProducerAvailable)
      | (pid, _) :: _ =>
        if canC pid caps then
          if tr.closed then (s, Resp.engineError)
          else if engineOk then
            let cid := s.nextId
            ({ s with
                matchConsumers :=
                  upd2 s.matchConsumers matchId cid
                    { transportId := transportId, producerId := pid, closed := false },
                nextId := cid + 1 },
             Resp.consumed cid pid)
          else (s, Resp.engineError)
        else (s, Resp.cannotConsume)

/-- `GET /api/stream-status/:matchId` (lines 169-179).  Line 172 computes
`matchProducers[matchId] && Object.keys(matchProducers[matchId]).length > 0`:
when the session has no producer entry the JavaScript `&&` yields the left
operand `undefined` (modelled `none`), otherwise the Boolean on the right.
Line 177 computes `hasProducers ? length : 0`. -/
def streamStatus (s : ServerState) (matchId : String) : ServerState × Resp :=
  match getL s.matchProducers matchId with
  | none => (s, Resp.statusReport none 0)
  | some inner =>
    let hasProducers := decide (0 < inner.length)
    (s, Resp.statusReport (some hasProducers) (if hasProducers then inner.length else 0))

/-- `JSON.stringify` of the status payload (line 175): a field whose value is
`undefined` is omitted from the serialized object. -/
def serializeStatus (isActive : Option Bool) (producerCount : Nat) :
    List (String × String) :=
  (match isActive with
   | none => []
   | some b => [("isActive", if b then "true" else "false")]) ++
  [("producerCount", toString producerCount)]

/-- `POST /api/close-producer` (lines 182-198): if the producer is registered,
call `producer.close()` and then delete the handle; an absent producer is a
successful no-op.  When the engine close throws (its id is in `failSet`), the
catch block at line 194 answers 500 and the delete on line 190 is never
reached. -/
def closeProducer (s : ServerState) (matchId : String) (producerId : Nat)
    (failSet : List Nat) : ServerState × Resp :=
  if matchId = "" then (s, Resp.missingFields)
  else
    match get2 s.matchProducers matchId producerId with
    | some _ =>
      if producerId ∈ failSet then (s, Resp.closeError)
      else
        ({ s with
            matchProducers :=
              modifyInner s.matchProducers matchId (fun inner => eraseL inner producerId) },
         Resp.success)
    | none => (s, Resp.success)

/-- Effect of the `"transportclose"` subscriptions fired when a transport is
engine-closed: every producer of the match created on that transport is deleted
from the registry (handler at lines 105-110). -/
def removeOwnedP (inner : List (Nat × Producer)) (t : Nat) : List (Nat × Producer) :=
  inner.filter (fun q => decide (q.2.transportId ≠ t))

/-- Same cascade for consumers (handler at lines 149-154). -/
def removeOwnedC (inner : List (Nat × Consumer)) (t : Nat) : List (Nat × Consumer) :=
  inner.filter (fun q => decide (q.2.transportId ≠ t))

/-- `POST /api/close-transport` (lines 201-217): if the transport is
registered, call `transport.close()` — which synchronously fires
`"transportclose"` on its producers and consumers, whose handlers delete them
from the registries — and then delete the transport handle.  An absent
transport is a successful no-op.  When the engine close throws, the catch at
line 213 answers 500 and nothing is removed. -/
def closeTransport (s : ServerState) (matchId : String) (transportId : Nat)
    (failSet : List Nat) : ServerState × Resp :=
  if matchId = "" then (s, Resp.missingFields)
  else
    match get2 s.matchTransports matchId transportId with
    | some _ =>
      if transportId ∈ failSet then (s, Resp.closeError)
      else
        ({ s with
            matchProducers := modifyInner s.matchProducers matchId (removeOwnedP · transportId),
            matchConsumers := modifyInner s.matchConsumers matchId (removeOwnedC · transportId),
            matchTransports :=
              modifyInner s.matchTransports matchId (fun inner => eraseL inner transportId) },
         Resp.success)
    | none => (s, Resp.success)

/-- Engine-side close of a producer (no registry side effect of its own). -/
def producerClosed (p : Producer) : Producer := { p with closed := true }

/-- Engine-side close of a consumer. -/
def consumerClosed (c : Consumer) : Consumer := { c with closed := true }

/-- Engine-side close of a transport. -/
def transportClosed (t : Transport) : Transport := { t with closed := true }

/-- `Object.values(inner).forEach(x => x.close())` with a possibly throwing
close: handles are closed in enumeration order until the first identifier in
`failSet` throws; the Boolean reports whether the whole loop completed.  On a
throw, the iteration stops: the failing handle and everything after it are
untouched. -/
def closeAll {α : Type} (setClosed : α → α) (failSet : List Nat) :
    List (Nat × α) → List (Nat × α) × Bool
  | [] => ([], true)
  | (k, v) :: rest =>
    if k ∈ failSet then ((k, v) :: rest, false)
    else
      let r := closeAll setClosed failSet rest
      ((k, setClosed v) :: r.1, r.2)

/-- Third stage of `POST /api/cleanup-match` (lines 238-241): close every
transport of the match, then `delete matchTransports[matchId]`.  The
`"transportclose"` handlers fired by these engine closes find their guards
(lines 107 and 151) false, because the first two stages already removed this
match's producer and consumer entries, so they have no further effect.  If a
close throws, the exception reaches the catch at line 245: the map entry
survives with the already-closed prefix marked closed. -/
def cleanupStage3 (s : ServerState) (matchId : String) (failSet : List Nat) :
    ServerState × Resp :=
  match getL s.matchTransports matchId with
  | some inner =>
    let r := closeAll transportClosed failSet inner
    if r.2 then
      ({ s with matchTransports := eraseL s.matchTransports matchId }, Resp.success)
    else
      ({ s with matchTransports := updL s.matchTransports matchId r.1 }, Resp.closeError)
  | none => (s, Resp.success)

/-- Second stage of `POST /api/cleanup-match` (lines 232-235): close every
consumer of the match, then delete the match's consumer entry; on a throw the
catch at line 245 answers 500 and the transports stage never runs. -/
def cleanupStage2 (s : ServerState) (matchId : String) (failSet : List Nat) :
    ServerState × Resp :=
  match getL s.matchConsumers matchId with
  | some inner =>
    let r := closeAll consumerClosed failSet inner
    if r.2 then
      cleanupStage3 ({ s with matchConsumers := eraseL s.matchConsumers matchId }) matchId failSet
    else
      ({ s with matchConsumers := updL s.matchConsumers matchId r.1 }, Resp.closeError)
  | none => cleanupStage3 s matchId failSet

/-- `POST /api/cleanup-match` (lines 220-249): close and delete all producers,
then all consumers, then all transports of the match.  A throwing engine close
aborts the whole route at the catch block, leaving the remaining stages
untouched. -/
def cleanupMatch (s : ServerState) (matchId : String) (failSet : List Nat) :
    ServerState × Resp :=
  if matchId = "" then (s, Resp.missingFields)
  else
    match getL s.matchProducers matchId with
    | some inner =>
      let r := closeAll producerClosed failSet inner
      if r.2 then
        cleanupStage2 ({ s with matchProducers := eraseL s.matchProducers matchId }) matchId failSet
      else
        ({ s with matchProducers := updL s.matchProducers matchId r.1 }, Resp.closeError)
    | none => cleanupStage2 s matchId failSet

/-- One inbound request with its engine outcomes. -/
inductive Cmd where
  | createT (matchId : String) (engineOk : Bool)
  | connectT (matchId : String) (transportId : Nat) (engineOk : Bool)
  | produceR (matchId : String) (transportId : Nat) (engineOk : Bool)
  | consumeR (matchId : String) (transportId : Nat) (caps : Nat) (engineOk : Bool)
  | statusR (matchId : String)
  | closeP (matchId : String) (producerId : Nat) (failSet : List Nat)
  | closeT (matchId : String) (transportId : Nat) (failSet : List Nat)
  | cleanupR (matchId : String) (failSet : List Nat)
deriving DecidableEq

/-- Dispatch one request against the state. -/
def step (canC : Nat → Nat → Bool) (s : ServerState) : Cmd → ServerState × Resp
  | .createT m ok => createTransport s m ok
  | .connectT m t ok => connectTransport s m t ok
  | .produceR m t ok => produce s m t ok
  | .consumeR m t caps ok => consume canC s m t caps ok
  | .statusR m => streamStatus s m
  | .closeP m p fs => closeProducer s m p fs
  | .closeT m t fs => closeTransport s m t fs
  | .cleanupR m fs => cleanupMatch s m fs

/-- Run a sequence of requests. -/
def exec (canC : Nat → Nat → Bool) (s : ServerState) : List Cmd → ServerState
  | [] => s
  | c :: rest => exec canC (step canC s c).1 rest

/-- The transport is registered for the match and not engine-closed. -/
def openIn (reg : Registry Transport) (m : String) (t : Nat) : Bool :=
  match get2 reg m t with
  | some tr => !tr.closed
  | none => false

/-- No producer or consumer registered under the match is owned by transport `t`. -/
def noneOwnedBy (s : ServerState) (m : String) (t : Nat) : Bool :=
  ((getL s.matchProducers m).getD []).all (fun q => decide (q.2.transportId ≠ t)) &&
  ((getL s.matchConsumers m).getD []).all (fun q => decide (q.2.transportId ≠ t))

/-- Registry consistency: every registered producer's owning transport is
registered in the same match and not closed. -/
def RegInv (s : ServerState) : Prop :=
  ∀ m inner pid p, getL s.matchProducers m = some inner → (pid, p) ∈ inner →
    openIn s.matchTransports m p.transportId = true

theorem getL_updL {κ : Type} {α : Type} [DecidableEq κ] (l : List (κ × α)) (k k' : κ) (v : α) :
    getL (updL l k v) k' = if k' = k then some v else getL l k' := by
  induction l with
  | nil =>
    by_cases h : k' = k
    · simp [updL, getL, h]
    · simp [updL, getL, h, Ne.symm h]
  | cons hd tl ih =>
    obtain ⟨k₀, v₀⟩ := hd
    by_cases h : k₀ = k
    · subst h
      by_cases h' : k' = k₀
      · subst h'; simp [updL, getL]
      · simp [updL, getL, h', Ne.symm h']
    · by_cases h' : k' = k
      · subst h'
        simp [updL, getL, h, ih]
      · simp [updL, getL, h, h', ih]

theorem getL_eraseL {κ : Type} {α : Type} [DecidableEq κ] (l : List (κ × α)) (k k' : κ) :
    getL (eraseL l k) k' = if k' = k then none else getL l k' := by
  induction l with
  | nil => by_cases h : k' = k <;> simp [eraseL, getL, h]
  | cons hd tl ih =>
    obtain ⟨k₀, v₀⟩ := hd
    by_cases h : k₀ = k
    · subst h
      by_cases h' : k' = k₀
      · subst h'; simp [eraseL, getL, ih]
      · simp [eraseL, getL, h', Ne.symm h', ih]
    · by_cases h' : k' = k
      · subst h'; simp [eraseL, getL, h, Ne.symm h, ih]
      · simp [eraseL, getL, h, h', ih]

theorem getL_mem {κ : Type} {α : Type} [DecidableEq κ] (l : List (κ × α)) (k : κ) (v : α)
    (h : getL l k = some v) : (k, v) ∈ l := by
  induction l with
  | nil => simp [getL] at h
  | cons hd tl ih =>
    obtain ⟨k₀, v₀⟩ := hd
    by_cases hk : k₀ = k
    · subst hk
      simp [getL] at h
      simp [h]
    · simp [getL, hk] at h
      exact List.mem_cons_of_mem _ (ih h)

theorem mem_updL {κ : Type} {α : Type} [DecidableEq κ] (l : List (κ × α)) (k k' : κ)
    (v v' : α) (h : (k', v') ∈ updL l k v) : (k', v') ∈ l ∨ (k' = k ∧ v' = v) := by
  induction l with
  | nil =>
    simp [updL] at h
    exact Or.inr h
  | cons hd tl ih =>
    obtain ⟨k₀, v₀⟩ := hd
    by_cases hk : k₀ = k
    · subst hk
      simp [updL] at h
      rcases h with h | h
      · exact Or.inr h
      · exact Or.inl (List.mem_cons_of_mem _ h)
    · simp [updL, hk] at h
      rcases h with h | h
      · exact Or.inl (by simp [h])
      · rcases ih h with h' | h'
        · exact Or.inl (List.mem_cons_of_mem _ h')
        · exact Or.inr h'

theorem mem_eraseL {κ : Type} {α : Type} [DecidableEq κ] (l : List (κ × α)) (k : κ)
    (x : κ × α) (h : x ∈ eraseL l k) : x ∈ l := by
  induction l with
  | nil => simp [eraseL] at h
  | cons hd tl ih =>
    obtain ⟨k₀, v₀⟩ := hd
    by_cases hk : k₀ = k
    · subst hk
      simp [eraseL] at h
      exact List.mem_cons_of_mem _ (ih h)
    · simp [eraseL, hk] at h
      rcases h with h | h
      · simp [h]
      · exact List.mem_cons_of_mem _ (ih h)

theorem mem_closeAll {α : Type} (setClosed : α → α) (failSet : List Nat)
    (l : List (Nat × α)) (k : Nat) (v : α) (h : (k, v) ∈ (closeAll setClosed failSet l).1) :
    ∃ v₀, (k, v₀) ∈ l ∧ (v = v₀ ∨ v = setClosed v₀) := by
  induction l with
  | nil => simp [closeAll] at h
  | cons hd tl ih =>
    obtain ⟨k₀, v₀⟩ := hd
    by_cases hf : k₀ ∈ failSet
    · simp [closeAll, hf] at h
      rcases h with ⟨hk, hv⟩ | h
      · exact ⟨v₀, by simp [hk], Or.inl hv⟩
      · exact ⟨v, List.mem_cons_of_mem _ h, Or.inl rfl⟩
    · simp [closeAll, hf] at h
      rcases h with ⟨hk, hv⟩ | h
      · exact ⟨v₀, by simp [hk], Or.inr hv⟩
      · rcases ih h with ⟨w, hw, hvw⟩
        exact ⟨w, List.mem_cons_of_mem _ hw, hvw⟩

theorem getL_modifyInner {α : Type} (reg : Registry α) (m m' : String)
    (f : List (Nat × α) → List (Nat × α)) :
    getL (modifyInner reg m f) m' =
      if m' = m then Option.map f (getL reg m) else getL reg m' := by
  unfold modifyInner
  cases hm : getL reg m with
  | none =>
    by_cases h : m' = m
    · subst h; simp [hm]
    · simp [h]
  | some inner =>
    rw [getL_updL]
    by_cases h : m' = m <;> simp [h, hm]

theorem get2_upd2 {α : Type} (reg : Registry α) (m m' : String) (i i' : Nat) (v : α) :
    get2 (upd2 reg m i v) m' i' =
      if m' = m then (if i' = i then some v else get2 reg m i') else get2 reg m' i' := by
  unfold get2 upd2
  rw [getL_updL]
  by_cases h : m' = m
  · subst h
    simp only [eq_self_iff_true, if_true, Option.some_bind]
    rw [getL_updL]
    by_cases h' : i' = i
    · simp [h']
    · simp only [if_neg h']
      cases hm : getL reg m' with
      | none => simp [getL]
      | some inner => simp
  · simp [h]

theorem get2_modifyInner {α : Type} (reg : Registry α) (m m' : String) (i : Nat)
    (f : List (Nat × α) → List (Nat × α)) :
    get2 (modifyInner reg m f) m' i =
      if m' = m then ((getL reg m).map f).bind (fun inner => getL inner i)
      else get2 reg m' i := by
  unfold get2
  rw [getL_modifyInner]
  by_cases h : m' = m <;> simp [h]

theorem connectTransport_fst (s : ServerState) (m : String) (t : Nat) (ok : Bool) :
    (connectTransport s m t ok).1 = s := by
  unfold connectTransport
  repeat' split
  all_goals rfl

theorem streamStatus_fst (s : ServerState) (m : String) : (streamStatus s m).1 = s := by
  unfold streamStatus
  split
  all_goals rfl

theorem consume_frame (canC : Nat → Nat → Bool) (s : ServerState) (m : String)
    (t caps : Nat) (ok : Bool) :
    (consume canC s m t caps ok).1.matchProducers = s.matchProducers ∧
    (consume canC s m t caps ok).1.matchTransports = s.matchTransports := by
  unfold consume
  repeat' split
  all_goals exact ⟨rfl, rfl⟩

theorem closeProducer_absent (s : ServerState) (m : String) (pid : Nat) (fs : List Nat)
    (hm : ¬m = "") (h : get2 s.matchProducers m pid = none) :
    closeProducer s m pid fs = (s, Resp.success) := by
  unfold closeProducer
  rw [if_neg hm, h]

theorem closeProducer_throw (s : ServerState) (m : String) (pid : Nat) (fs : List Nat)
    (p : Producer) (hm : ¬m = "") (h : get2 s.matchProducers m pid = some p)
    (hf : pid ∈ fs) : closeProducer s m pid fs = (s, Resp.closeError) := by
  unfold closeProducer
  rw [if_neg hm, h]
  dsimp only
  rw [if_pos hf]

theorem closeProducer_removes (s : ServerState) (m : String) (pid : Nat) (fs : List Nat)
    (p : Producer) (hm : ¬m = "") (h : get2 s.matchProducers m pid = some p)
    (hf : pid ∉ fs) :
    closeProducer s m pid fs =
      ({ s with matchProducers :=
          modifyInner s.matchProducers m (fun inner => eraseL inner pid) },
       Resp.success) := by
  unfold closeProducer
  rw [if_neg hm, h]
  dsimp only
  rw [if_neg hf]

theorem closeTransport_absent (s : ServerState) (m : String) (tid : Nat) (fs : List Nat)
    (hm : ¬m = "") (h : get2 s.matchTransports m tid = none) :
    closeTransport s m tid fs = (s, Resp.success) := by
  unfold closeTransport
  rw [if_neg hm, h]

theorem closeTransport_throw (s : ServerState) (m : String) (tid : Nat) (fs : List Nat)
    (tr : Transport) (hm : ¬m = "") (h : get2 s.matchTransports m tid = some tr)
    (hf : tid ∈ fs) : closeTransport s m tid fs = (s, Resp.closeError) := by
  unfold closeTransport
  rw [if_neg hm, h]
  dsimp only
  rw [if_pos hf]

theorem closeTransport_removes (s : ServerState) (m : String) (tid : Nat) (fs : List Nat)
    (tr : Transport) (hm : ¬m = "") (h : get2 s.matchTransports m tid = some tr)
    (hf : tid ∉ fs) :
    closeTransport s m tid fs =
      ({ s with
          matchProducers := modifyInner s.matchProducers m (removeOwnedP · tid),
          matchConsumers := modifyInner s.matchConsumers m (removeOwnedC · tid),
          matchTransports := modifyInner s.matchTransports m (fun inner => eraseL inner tid) },
       Resp.success) := by
  unfold closeTransport
  rw [if_neg hm, h]
  dsimp only
  rw [if_neg hf]

theorem get2_of_outer_none {α : Type} (reg : Registry α) (m : String) (i : Nat)
    (h : getL reg m = none) : get2 reg m i = none := by
  unfold get2
  rw [h]
  rfl

theorem connectTransport_notFound (s : ServerState) (m : String) (t : Nat) (ok : Bool)
    (hm : ¬m = "") (h : get2 s.matchTransports m t = none) :
    connectTransport s m t ok = (s, Resp.transportNotFound) := by
  unfold connectTransport
  rw [if_neg hm, h]

theorem produce_notFound (s : ServerState) (m : String) (t : Nat) (ok : Bool)
    (hm : ¬m = "") (h : get2 s.matchTransports m t = none) :
    produce s m t ok = (s, Resp.transportNotFound) := by
  unfold produce
  rw [if_neg hm, h]

theorem consume_notFound (canC : Nat → Nat → Bool) (s : ServerState) (m : String)
    (t caps : Nat) (ok : Bool) (hm : ¬m = "") (h : get2 s.matchTransports m t = none) :
    consume canC s m t caps ok = (s, Resp.transportNotFound) := by
  unfold consume
  rw [if_neg hm, h]

theorem consume_noProducer (canC : Nat → Nat → Bool) (s : ServerState) (m : String)
    (t caps : Nat) (ok : Bool) (tr : Transport) (hm : ¬m = "")
    (h : get2 s.matchTransports m t = some tr)
    (hp : (getL s.matchProducers m).getD [] = []) :
    consume canC s m t caps ok = (s, Resp.noProducerAvailable) := by
  unfold consume
  rw [if_neg hm, h]
  dsimp only
  rw [hp]

theorem consume_incompatible (canC : Nat → Nat → Bool) (s : ServerState) (m : String)
    (t caps : Nat) (ok : Bool) (tr : Transport) (pid : Nat) (p : Producer)
    (rest : List (Nat × Producer)) (hm : ¬m = "")
    (h : get2 s.matchTransports m t = some tr)
    (hp : (getL s.matchProducers m).getD [] = (pid, p) :: rest)
    (hc : canC pid caps = false) :
    consume canC s m t caps ok = (s, Resp.cannotConsume) := by
  unfold consume
  rw [if_neg hm, h]
  dsimp only
  rw [hp]
  dsimp only
  rw [hc]
  rfl

theorem consume_selects (canC : Nat → Nat → Bool) (s : ServerState) (m : String)
    (t caps : Nat) (tr : Transport) (pid : Nat) (p : Producer)
    (rest : List (Nat × Producer)) (hm : ¬m = "")
    (h : get2 s.matchTransports m t = some tr)
    (hp : (getL s.matchProducers m).getD [] = (pid, p) :: rest)
    (hc : canC pid caps = true) (hcl : tr.closed = false) :
    consume canC s m t caps true =
      ({ s with
          matchConsumers := upd2 s.matchConsumers m s.nextId
            { transportId := t, producerId := pid, closed := false },
          nextId := s.nextId + 1 },
       Resp.consumed s.nextId pid) := by
  unfold consume
  rw [if_neg hm, h]
  dsimp only
  rw [hp]
  dsimp only
  rw [hc, hcl]
  rfl

theorem cleanupStage3_producers (s : ServerState) (m : String) (fs : List Nat) :
    (cleanupStage3 s m fs).1.matchProducers = s.matchProducers ∧
    (cleanupStage3 s m fs).1.matchConsumers = s.matchConsumers := by
  unfold cleanupStage3
  cases hg : getL s.matchTransports m with
  | none => exact ⟨rfl, rfl⟩
  | some inner =>
    dsimp only
    by_cases hok : (closeAll transportClosed fs inner).2 = true
    · rw [if_pos hok]
      exact ⟨rfl, rfl⟩
    · rw [if_neg hok]
      exact ⟨rfl, rfl⟩

theorem cleanupStage2_producers (s : ServerState) (m : String) (fs : List Nat) :
    (cleanupStage2 s m fs).1.matchProducers = s.matchProducers := by
  unfold cleanupStage2
  cases hg : getL s.matchConsumers m with
  | none => exact (cleanupStage3_producers s m fs).1
  | some inner =>
    dsimp only
    by_cases hok : (closeAll consumerClosed fs inner).2 = true
    · rw [if_pos hok]
      exact (cleanupStage3_producers _ m fs).1
    · rw [if_neg hok]

theorem cleanupStage3_success (s : ServerState) (m : String) (fs : List Nat)
    (h : (cleanupStage3 s m fs).2 = Resp.success) :
    getL (cleanupStage3 s m fs).1.matchTransports m = none := by
  unfold cleanupStage3 at h ⊢
  cases hg : getL s.matchTransports m with
  | none => exact hg
  | some inner =>
    rw [hg] at h
    dsimp only at h ⊢
    by_cases hok : (closeAll transportClosed fs inner).2 = true
    · rw [if_pos hok]
      dsimp only
      rw [getL_eraseL, if_pos rfl]
    · rw [if_neg hok] at h
      cases h

theorem cleanupStage2_success (s : ServerState) (m : String) (fs : List Nat)
    (h : (cleanupStage2 s m fs).2 = Resp.success) :
    getL (cleanupStage2 s m fs).1.matchConsumers m = none ∧
    getL (cleanupStage2 s m fs).1.matchTransports m = none := by
  unfold cleanupStage2 at h ⊢
  cases hg : getL s.matchConsumers m with
  | none =>
    rw [hg] at h
    dsimp only at h ⊢
    refine ⟨?_, cleanupStage3_success _ m fs h⟩
    rw [(cleanupStage3_producers _ m fs).2]
    exact hg
  | some inner =>
    rw [hg] at h
    dsimp only at h ⊢
    by_cases hok : (closeAll consumerClosed fs inner).2 = true
    · rw [if_pos hok] at h ⊢
      refine ⟨?_, cleanupStage3_success _ m fs h⟩
      rw [(cleanupStage3_producers _ m fs).2]
      dsimp only
      rw [getL_eraseL, if_pos rfl]
    · rw [if_neg hok] at h
      cases h

theorem cleanupMatch_success (s : ServerState) (m : String) (fs : List Nat)
    (h : (cleanupMatch s m fs).2 = Resp.success) :
    ¬m = "" ∧
    getL (cleanupMatch s m fs).1.matchProducers m = none ∧
    getL (cleanupMatch s m fs).1.matchConsumers m = none ∧
    getL (cleanupMatch s m fs).1.matchTransports m = none := by
  unfold cleanupMatch at h ⊢
  by_cases hm : m = ""
  · rw [if_pos hm] at h
    cases h
  · rw [if_neg hm] at h ⊢
    refine ⟨hm, ?_⟩
    cases hg : getL s.matchProducers m with
    | none =>
      rw [hg] at h
      dsimp only at h ⊢
      refine ⟨?_, cleanupStage2_success _ m fs h⟩
      rw [cleanupStage2_producers _ m fs]
      exact hg
    | some inner =>
      rw [hg] at h
      dsimp only at h ⊢
      by_cases hok : (closeAll producerClosed fs inner).2 = true
      · rw [if_pos hok] at h ⊢
        refine ⟨?_, cleanupStage2_success _ m fs h⟩
        rw [cleanupStage2_producers _ m fs]
        dsimp only
        rw [getL_eraseL, if_pos rfl]
      · rw [if_neg hok] at h
        cases h

theorem cleanupMatch_noop (s : ServerState) (m : String) (fs : List Nat)
    (hm : ¬m = "") (hP : getL s.matchProducers m = none)
    (hC : getL s.matchConsumers m = none) (hT : getL s.matchTransports m = none) :
    cleanupMatch s m fs = (s, Resp.success) := by
  unfold cleanupMatch
  rw [if_neg hm, hP]
  dsimp only
  unfold cleanupStage2
  rw [hC]
  dsimp only
  unfold cleanupStage3
  rw [hT]

theorem regInv_frame (s s' : ServerState) (hP : s'.matchProducers = s.matchProducers)
    (hT : s'.matchTransports = s.matchTransports) (h : RegInv s) : RegInv s' := by
  intro m inner pid p hg hmem
  rw [hP] at hg
  rw [hT]
  exact h m inner pid p hg hmem

theorem openIn_upd2_open (reg : Registry Transport) (m m' : String) (k t : Nat)
    (h : openIn reg m' t = true) :
    openIn (upd2 reg m k { closed := false }) m' t = true := by
  unfold openIn at h ⊢
  rw [get2_upd2]
  by_cases hm : m' = m
  · subst hm
    rw [if_pos rfl]
    by_cases hk : t = k
    · rw [if_pos hk]
      rfl
    · rw [if_neg hk]
      exact h
  · rw [if_neg hm]
    exact h

theorem regInv_createTransport (s : ServerState) (m : String) (ok : Bool) (h : RegInv s) :
    RegInv (createTransport s m ok).1 := by
  unfold createTransport
  by_cases hm : m = ""
  · rw [if_pos hm]
    exact h
  · rw [if_neg hm]
    by_cases hok : ok = true
    · rw [if_pos hok]
      intro m' inner pid p hg hmem
      exact openIn_upd2_open _ _ _ _ _ (h m' inner pid p hg hmem)
    · rw [if_neg hok]
      exact h

theorem regInv_connectTransport (s : ServerState) (m : String) (t : Nat) (ok : Bool)
    (h : RegInv s) : RegInv (connectTransport s m t ok).1 := by
  rw [connectTransport_fst]
  exact h

theorem regInv_streamStatus (s : ServerState) (m : String) (h : RegInv s) :
    RegInv (streamStatus s m).1 := by
  rw [streamStatus_fst]
  exact h

theorem regInv_consume (canC : Nat → Nat → Bool) (s : ServerState) (m : String)
    (t caps : Nat) (ok : Bool) (h : RegInv s) : RegInv (consume canC s m t caps ok).1 :=
  regInv_frame s _ (consume_frame canC s m t caps ok).1 (consume_frame canC s m t caps ok).2 h

theorem regInv_produce (s : ServerState) (m : String) (t : Nat) (ok : Bool)
    (h : RegInv s) : RegInv (produce s m t ok).1 := by
  unfold produce
  by_cases hm : m = ""
  · rw [if_pos hm]
    exact h
  · rw [if_neg hm]
    cases hg : get2 s.matchTransports m t with
    | none => exact h
    | some tr =>
      dsimp only
      by_cases hcl : tr.closed = true
      · rw [if_pos hcl]
        exact h
      · rw [if_neg hcl]
        by_cases hok : ok = true
        · rw [if_pos hok]
          intro m' inner pid p hgp hmem
          have hgp' : getL (upd2 s.matchProducers m s.nextId
              { transportId := t, closed := false }) m' = some inner := hgp
          unfold upd2 at hgp'
          rw [getL_updL] at hgp'
          by_cases hm' : m' = m
          · subst hm'
            rw [if_pos rfl] at hgp'
            injection hgp' with hinner
            subst hinner
            rcases mem_updL _ _ _ _ _ hmem with hold | ⟨hpid, hp⟩
            · cases hg0 : getL s.matchProducers m' with
              | none =>
                rw [hg0] at hold
                simp at hold
              | some inner1 =>
                rw [hg0] at hold
                exact h m' inner1 pid p hg0 (by simpa using hold)
            · subst hp
              show openIn s.matchTransports m' t = true
              unfold openIn
              rw [hg]
              dsimp only
              cases htr : tr.closed with
              | true => exact absurd htr hcl
              | false => rfl
          · rw [if_neg hm'] at hgp'
            exact h m' inner pid p hgp' hmem
        · rw [if_neg hok]
          exact h

theorem regInv_closeProducer (s : ServerState) (m : String) (pid : Nat) (fs : List Nat)
    (h : RegInv s) : RegInv (closeProducer s m pid fs).1 := by
  unfold closeProducer
  by_cases hm : m = ""
  · rw [if_pos hm]
    exact h
  · rw [if_neg hm]
    cases hg : get2 s.matchProducers m pid with
    | none => exact h
    | some p0 =>
      dsimp only
      by_cases hf : pid ∈ fs
      · rw [if_pos hf]
        exact h
      · rw [if_neg hf]
        intro m' inner pid' p hgp hmem
        have hgp' : getL (modifyInner s.matchProducers m
            (fun inner => eraseL inner pid)) m' = some inner := hgp
        rw [getL_modifyInner] at hgp'
        by_cases hm' : m' = m
        · subst hm'
          rw [if_pos rfl] at hgp'
          cases hg0 : getL s.matchProducers m' with
          | none =>
            rw [hg0] at hgp'
            simp at hgp'
          | some inner1 =>
            rw [hg0] at hgp'
            simp only [Option.map_some'] at hgp'
            injection hgp' with hinner
            subst hinner
            exact h m' inner1 pid' p hg0 (mem_eraseL _ _ _ hmem)
        · rw [if_neg hm'] at hgp'
          exact h m' inner pid' p hgp' hmem

theorem regInv_closeTransport (s : ServerState) (m : String) (tid : Nat) (fs : List Nat)
    (h : RegInv s) : RegInv (closeTransport s m tid fs).1 := by
  unfold closeTransport
  by_cases hm : m = ""
  · rw [if_pos hm]
    exact h
  · rw [if_neg hm]
    cases hg : get2 s.matchTransports m tid with
    | none => exact h
    | some tr =>
      dsimp only
      by_cases hf : tid ∈ fs
      · rw [if_pos hf]
        exact h
      · rw [if_neg hf]
        intro m' inner pid p hgp hmem
        have hgp' : getL (modifyInner s.matchProducers m (removeOwnedP · tid)) m' =
            some inner := hgp
        rw [getL_modifyInner] at hgp'
        show openIn (modifyInner s.matchTransports m (fun inner => eraseL inner tid)) m'
          p.transportId = true
        by_cases hm' : m' = m
        · subst hm'
          rw [if_pos rfl] at hgp'
          cases hg0 : getL s.matchProducers m' with
          | none =>
            rw [hg0] at hgp'
            simp at hgp'
          | some inner1 =>
            rw [hg0] at hgp'
            simp only [Option.map_some'] at hgp'
            injection hgp' with hinner
            subst hinner
            simp only [removeOwnedP] at hmem
            have hmem' := List.mem_filter.mp hmem
            have hne : p.transportId ≠ tid := by simpa using hmem'.2
            have hopen := h m' inner1 pid p hg0 hmem'.1
            unfold openIn get2 at hopen ⊢
            rw [getL_modifyInner, if_pos rfl]
            cases hgT : getL s.matchTransports m' with
            | none =>
              rw [hgT] at hopen
              simp at hopen
            | some innerT =>
              rw [hgT] at hopen
              simp only [Option.map_some', Option.some_bind] at hopen ⊢
              rw [getL_eraseL, if_neg hne]
              exact hopen
        · rw [if_neg hm'] at hgp'
          have hopen := h m' inner pid p hgp' hmem
          unfold openIn get2 at hopen ⊢
          rw [getL_modifyInner, if_neg hm']
          exact hopen

theorem regInv_cleanupStage3 (s : ServerState) (m : String) (fs : List Nat)
    (h : RegInv s) (hP : getL s.matchProducers m = none) :
    RegInv (cleanupStage3 s m fs).1 := by
  unfold cleanupStage3
  cases hg : getL s.matchTransports m with
  | none => exact h
  | some innerT =>
    dsimp only
    by_cases hok : (closeAll transportClosed fs innerT).2 = true
    · rw [if_pos hok]
      intro m' inner pid p hgp hmem
      have hgp' : getL s.matchProducers m' = some inner := hgp
      by_cases hm' : m' = m
      · subst hm'
        rw [hP] at hgp'
        simp at hgp'
      · have hopen := h m' inner pid p hgp' hmem
        unfold openIn get2 at hopen ⊢
        dsimp only
        rw [getL_eraseL, if_neg hm']
        exact hopen
    · rw [if_neg hok]
      intro m' inner pid p hgp hmem
      have hgp' : getL s.matchProducers m' = some inner := hgp
      by_cases hm' : m' = m
      · subst hm'
        rw [hP] at hgp'
        simp at hgp'
      · have hopen := h m' inner pid p hgp' hmem
        unfold openIn get2 at hopen ⊢
        dsimp only
        rw [getL_updL, if_neg hm']
        exact hopen

theorem regInv_cleanupStage2 (s : ServerState) (m : String) (fs : List Nat)
    (h : RegInv s) (hP : getL s.matchProducers m = none) :
    RegInv (cleanupStage2 s m fs).1 := by
  unfold cleanupStage2
  cases hg : getL s.matchConsumers m with
  | none => exact regInv_cleanupStage3 s m fs h hP
  | some innerC =>
    dsimp only
    by_cases hok : (closeAll consumerClosed fs innerC).2 = true
    · rw [if_pos hok]
      exact regInv_cleanupStage3 _ m fs (regInv_frame s _ rfl rfl h) hP
    · rw [if_neg hok]
      exact regInv_frame s _ rfl rfl h

theorem regInv_cleanupMatch (s : ServerState) (m : String) (fs : List Nat)
    (h : RegInv s) : RegInv (cleanupMatch s m fs).1 := by
  unfold cleanupMatch
  by_cases hm : m = ""
  · rw [if_pos hm]
    exact h
  · rw [if_neg hm]
    cases hg : getL s.matchProducers m with
    | none => exact regInv_cleanupStage2 s m fs h hg
    | some inner =>
      dsimp only
      by_cases hok : (closeAll producerClosed fs inner).2 = true
      · rw [if_pos hok]
        refine regInv_cleanupStage2 _ m fs ?_ ?_
        · intro m' inner' pid p hgp hmem
          have hgp' : getL (eraseL s.matchProducers m) m' = some inner' := hgp
          rw [getL_eraseL] at hgp'
          by_cases hm' : m' = m
          · rw [if_pos hm'] at hgp'
            simp at hgp'
          · rw [if_neg hm'] at hgp'
            exact h m' inner' pid p hgp' hmem
        · show getL (eraseL s.matchProducers m) m = none
          rw [getL_eraseL, if_pos rfl]
      · rw [if_neg hok]
        intro m' inner' pid p hgp hmem
        have hgp' : getL (updL s.matchProducers m (closeAll producerClosed fs inner).1) m' =
            some inner' := hgp
        rw [getL_updL] at hgp'
        by_cases hm' : m' = m
        · subst hm'
          rw [if_pos rfl] at hgp'
          injection hgp' with hinner
          subst hinner
          rcases mem_closeAll _ _ _ _ _ hmem with ⟨p₀, hp₀, hcase⟩
          have hopen := h m' inner pid p₀ hg hp₀
          rcases hcase with rfl | rfl
          · exact hopen
          · exact hopen
        · rw [if_neg hm'] at hgp'
          exact h m' inner' pid p hgp' hmem

theorem regInv_step (canC : Nat → Nat → Bool) (s : ServerState) (c : Cmd)
    (h : RegInv s) : RegInv (step canC s c).1 := by
  cases c with
  | createT m ok => exact regInv_createTransport s m ok h
  | connectT m t ok => exact regInv_connectTransport s m t ok h
  | produceR m t ok => exact regInv_produce s m t ok h
  | consumeR m t caps ok => exact regInv_consume canC s m t caps ok h
  | statusR m => exact regInv_streamStatus s m h
  | closeP m p fs => exact regInv_closeProducer s m p fs h
  | closeT m t fs => exact regInv_closeTransport s m t fs h
  | cleanupR m fs => exact regInv_cleanupMatch s m fs h

theorem regInv_initial : RegInv initialState := by
  intro m inner pid p hg hmem
  simp [initialState, getL] at hg

theorem regInv_exec (canC : Nat → Nat → Bool) (l : List Cmd) (s : ServerState)
    (h : RegInv s) : RegInv (exec canC s l) := by
  induction l generalizing s with
  | nil => exact h
  | cons c rest ih => exact ih _ (regInv_step canC s c h)

theorem all_removeOwnedP (inner : List (Nat × Producer)) (t : Nat) :
    (removeOwnedP inner t).all (fun q => decide (q.2.transportId ≠ t)) = true := by
  rw [List.all_eq_true]
  intro x hx
  exact (List.mem_filter.mp hx).2

theorem all_removeOwnedC (inner : List (Nat × Consumer)) (t : Nat) :
    (removeOwnedC inner t).all (fun q => decide (q.2.transportId ≠ t)) = true := by
  rw [List.all_eq_true]
  intro x hx
  exact (List.mem_filter.mp hx).2

theorem closeTransport_success_noneOwned (s : ServerState) (m : String) (tid : Nat)
    (fs : List Nat) (tr : Transport) (h : get2 s.matchTransports m tid = some tr)
    (hsucc : (closeTransport s m tid fs).2 = Resp.success) :
    noneOwnedBy (closeTransport s m tid fs).1 m tid = true := by
  by_cases hm : m = ""
  · unfold closeTransport at hsucc
    rw [if_pos hm] at hsucc
    cases hsucc
  · by_cases hf : tid ∈ fs
    · rw [closeTransport_throw s m tid fs tr hm h hf] at hsucc
      cases hsucc
    · rw [closeTransport_removes s m tid fs tr hm h hf]
      unfold noneOwnedBy
      rw [Bool.and_eq_true]
      constructor
      · dsimp only
        rw [getL_modifyInner, if_pos rfl]
        cases hg0 : getL s.matchProducers m with
        | none => rfl
        | some inner =>
          simp only [Option.map_some', Option.getD_some]
          exact all_removeOwnedP inner tid
      · dsimp only
        rw [getL_modifyInner, if_pos rfl]
        cases hg0 : getL s.matchConsumers m with
        | none => rfl
        | some inner =>
          simp only [Option.map_some', Option.getD_some]
          exact all_removeOwnedC inner tid

theorem closeProducer_idem (s : ServerState) (m : String) (pid : Nat) (fs fs' : List Nat)
    (hsucc : (closeProducer s m pid fs).2 = Resp.success) :
    closeProducer (closeProducer s m pid fs).1 m pid fs' =
      ((closeProducer s m pid fs).1, Resp.success) := by
  by_cases hm : m = ""
  · unfold closeProducer at hsucc
    rw [if_pos hm] at hsucc
    cases hsucc
  · cases hg : get2 s.matchProducers m pid with
    | none =>
      rw [closeProducer_absent s m pid fs hm hg]
      exact closeProducer_absent s m pid fs' hm hg
    | some p0 =>
      by_cases hf : pid ∈ fs
      · rw [closeProducer_throw s m pid fs p0 hm hg hf] at hsucc
        cases hsucc
      · rw [closeProducer_removes s m pid fs p0 hm hg hf]
        apply closeProducer_absent _ m pid fs' hm
        dsimp only
        rw [get2_modifyInner, if_pos rfl]
        cases hg0 : getL s.matchProducers m with
        | none => rfl
        | some inner =>
          simp only [Option.map_some', Option.some_bind]
          rw [getL_eraseL, if_pos rfl]

theorem closeTransport_idem (s : ServerState) (m : String) (tid : Nat) (fs fs' : List Nat)
    (hsucc : (closeTransport s m tid fs).2 = Resp.success) :
    closeTransport (closeTransport s m tid fs).1 m tid fs' =
      ((closeTransport s m tid fs).1, Resp.success) := by
  by_cases hm : m = ""
  · unfold closeTransport at hsucc
    rw [if_pos hm] at hsucc
    cases hsucc
  · cases hg : get2 s.matchTransports m tid with
    | none =>
      rw [closeTransport_absent s m tid fs hm hg]
      exact closeTransport_absent s m tid fs' hm hg
    | some tr =>
      by_cases hf : tid ∈ fs
      · rw [closeTransport_throw s m tid fs tr hm hg hf] at hsucc
        cases hsucc
      · rw [closeTransport_removes s m tid fs tr hm hg hf]
        apply closeTransport_absent _ m tid fs' hm
        dsimp only
        rw [get2_modifyInner, if_pos rfl]
        cases hg0 : getL s.matchTransports m with
        | none => rfl
        | some inner =>
          simp only [Option.map_some', Option.some_bind]
          rw [getL_eraseL, if_pos rfl]

theorem cleanupMatch_idem (s : ServerState) (m : String) (fs fs' : List Nat)
    (hsucc : (cleanupMatch s m fs).2 = Resp.success) :
    cleanupMatch (cleanupMatch s m fs).1 m fs' =
      ((cleanupMatch s m fs).1, Resp.success) := by
  obtain ⟨hm, hP, hC, hT⟩ := cleanupMatch_success s m fs hsucc
  exact cleanupMatch_noop _ m fs' hm hP hC hT

theorem consume_cases (canC : Nat → Nat → Bool) (s : ServerState) (m : String)
    (t caps : Nat) (ok : Bool) :
    (consume canC s m t caps ok).1 = s ∨
    ((consume canC s m t caps ok).2).isConsumed = true := by
  unfold consume
  repeat' split
  all_goals first
  | exact Or.inl rfl
  | exact Or.inr rfl

theorem consume_fail_frame (canC : Nat → Nat → Bool) (s : ServerState) (m : String)
    (t caps : Nat) (ok : Bool)
    (h : ((consume canC s m t caps ok).2).isConsumed = false) :
    (consume canC s m t caps ok).1 = s := by
  rcases consume_cases canC s m t caps ok with h1 | h2
  · exact h1
  · rw [h2] at h
    cases h

theorem createTransport_missing (s : ServerState) (ok : Bool) :
    createTransport s "" ok = (s, Resp.missingFields) := by
  unfold createTransport
  rw [if_pos rfl]

theorem createTransport_engineFail (s : ServerState) (m : String) (hm : ¬m = "") :
    createTransport s m false = (s, Resp.engineError) := by
  unfold createTransport
  rw [if_neg hm]
  rfl

theorem createTransport_registers (s : ServerState) (m : String) (hm : ¬m = "") :
    createTransport s m true =
      ({ s with
          matchTransports := upd2 s.matchTransports m s.nextId { closed := false },
          nextId := s.nextId + 1 },
       Resp.transportCreated s.nextId) := by
  unfold createTransport
  rw [if_neg hm]
  rfl

/-- Compatibility oracle that accepts every pairing. -/
def canCyes : Nat → Nat → Bool := fun _ _ => true

/-- Compatibility oracle that rejects every pairing. -/
def canCno : Nat → Nat → Bool := fun _ _ => false

/-- Compatibility oracle that accepts only producer 3. -/
def canCsel : Nat → Nat → Bool := fun pid _ => decide (pid = 3)

/-- Concrete state: match `"m1"` with open transport 1, producer 2 created on
transport 1, and consumer 3 created on transport 1 consuming producer 2. -/
def demoState : ServerState :=
  { matchTransports := [("m1", [(1, { closed := false })])],
    matchProducers := [("m1", [(2, { transportId := 1, closed := false })])],
    matchConsumers := [("m1", [(3, { transportId := 1, producerId := 2, closed := false })])],
    nextId := 4 }

/-- Concrete state: match `"m1"` with open transport 1 and two producers, 2
registered before 3, both on transport 1. -/
def twoProducers : ServerState :=
  { matchTransports := [("m1", [(1, { closed := false })])],
    matchProducers := [("m1", [(2, { transportId := 1, closed := false }),
                               (3, { transportId := 1, closed := false })])],
    matchConsumers := [],
    nextId := 4 }

/-- Concrete state: match `"m1"` with open transport 1 and no producers. -/
def transportOnly : ServerState :=
  { matchTransports := [("m1", [(1, { closed := false })])],
    matchProducers := [],
    matchConsumers := [],
    nextId := 2 }

/-- C1 counterexample: starting from `demoState` (one transport, one producer,
one consumer under match "m1"), `cleanup-match` completes successfully, yet the
subsequent status query does NOT report `isActive = false`: line 172 evaluates
to the JavaScript `undefined` because the producer entry was deleted, so the
activity flag is `none`, not `some false`.  Moreover `close-transport` naming
the previously issued transport identifier 1 answers success (idempotent
no-op), not the claimed `TransportNotFound`. -/
theorem c1_cex :
    (cleanupMatch demoState "m1" []).2 = Resp.success ∧
    ((streamStatus (cleanupMatch demoState "m1" []).1 "m1").2).reportedActive ≠ some false ∧
    ((streamStatus (cleanupMatch demoState "m1" []).1 "m1").2).reportedActive = none ∧
    (closeTransport (cleanupMatch demoState "m1" []).1 "m1" 1 []).2 = Resp.success := by
  decide

/-- C1 amended: after `cleanup-match` completes successfully, the session has
no entry in any of the three registries; a status query reports
`producerCount = 0` with the activity flag computed as `undefined` (omitted
from the response — in particular never `true` — rather than the Boolean
`false`); and every subsequent lookup-requiring operation (connect-transport,
produce, consume) naming a previously issued transport identifier of that
session fails with `TransportNotFound` (the close routes instead succeed as
idempotent no-ops). -/
theorem c1_cleanup_aftermath (s : ServerState) (m : String) (fs : List Nat)
    (hsucc : (cleanupMatch s m fs).2 = Resp.success) :
    getL (cleanupMatch s m fs).1.matchProducers m = none ∧
    getL (cleanupMatch s m fs).1.matchConsumers m = none ∧
    getL (cleanupMatch s m fs).1.matchTransports m = none ∧
    (streamStatus (cleanupMatch s m fs).1 m).2 = Resp.statusReport none 0 ∧
    (∀ t ok, connectTransport (cleanupMatch s m fs).1 m t ok =
      ((cleanupMatch s m fs).1, Resp.transportNotFound)) ∧
    (∀ t ok, produce (cleanupMatch s m fs).1 m t ok =
      ((cleanupMatch s m fs).1, Resp.transportNotFound)) ∧
    (∀ canC t caps ok, consume canC (cleanupMatch s m fs).1 m t caps ok =
      ((cleanupMatch s m fs).1, Resp.transportNotFound)) := by
  obtain ⟨hm, hP, hC, hT⟩ := cleanupMatch_success s m fs hsucc
  refine ⟨hP, hC, hT, ?_, ?_, ?_, ?_⟩
  · unfold streamStatus
    rw [hP]
  · intro t ok
    exact connectTransport_notFound _ m t ok hm (get2_of_outer_none _ m t hT)
  · intro t ok
    exact produce_notFound _ m t ok hm (get2_of_outer_none _ m t hT)
  · intro canC t caps ok
    exact consume_notFound canC _ m t caps ok hm (get2_of_outer_none _ m t hT)

/-- C1 witness: the amended theorem instantiated on `demoState`. -/
theorem c1_witness :
    getL (cleanupMatch demoState "m1" []).1.matchTransports "m1" = none ∧
    (streamStatus (cleanupMatch demoState "m1" []).1 "m1").2 = Resp.statusReport none 0 ∧
    connectTransport (cleanupMatch demoState "m1" []).1 "m1" 1 true =
      ((cleanupMatch demoState "m1" []).1, Resp.transportNotFound) ∧
    produce (cleanupMatch demoState "m1" []).1 "m1" 1 true =
      ((cleanupMatch demoState "m1" []).1, Resp.transportNotFound) ∧
    consume canCyes (cleanupMatch demoState "m1" []).1 "m1" 1 0 true =
      ((cleanupMatch demoState "m1" []).1, Resp.transportNotFound) := by
  have h := c1_cleanup_aftermath demoState "m1" [] (by decide)
  exact ⟨h.2.2.1, h.2.2.2.1, h.2.2.2.2.1 1 true, h.2.2.2.2.2.1 1 true,
         h.2.2.2.2.2.2 canCyes 1 0 true⟩

/-- C2 counterexample: in `demoState`, consumer 3 was created against producer
2 and its own transport 1 stays open.  `close-producer` on producer 2 succeeds
and removes the producer, yet consumer 3 is still registered afterwards: the
code subscribes consumers only to `"transportclose"` (lines 149-154) and the
close-producer route (lines 182-198) never touches `matchConsumers`, so the
claimed cascade removal on producer close does not exist. -/
theorem c2_cex :
    (closeProducer demoState "m1" 2 []).2 = Resp.success ∧
    get2 (closeProducer demoState "m1" 2 []).1.matchProducers "m1" 2 = none ∧
    get2 (closeProducer demoState "m1" 2 []).1.matchConsumers "m1" 3 =
      some { transportId := 1, producerId := 2, closed := false } := by
  decide

/-- C2 amended: `closeProducer` never touches the consumer registry — every
consumer, including those created against the closed producer, remains
registered exactly as before; a consumer is removed only by its own
transport's close cascade or by whole-session cleanup. -/
theorem c2_producer_close_keeps_consumers (s : ServerState) (m : String) (pid : Nat)
    (fs : List Nat) :
    (closeProducer s m pid fs).1.matchConsumers = s.matchConsumers := by
  unfold closeProducer
  repeat' split
  all_goals rfl

/-- C3 counterexample: `twoProducers` has producers 2 and 3 (in that creation
order) and `canCsel` accepts only producer 3.  The claimed policy must select
producer 3 — the earliest CREATION-ordered producer among the compatible ones —
and may return the incompatibility error only when no producer passes; the
code instead checks `canConsume` solely on the first enumerated producer
(lines 136-140) and answers 400 `"Cannot consume this producer"` even though
producer 3 passes the predicate. -/
theorem c3_cex :
    consume canCsel twoProducers "m1" 1 0 true = (twoProducers, Resp.cannotConsume) ∧
    canCsel 3 0 = true := by
  decide

/-- C3 amended: `consume` considers only the FIRST producer of the session's
registry in enumeration (= creation) order, regardless of compatibility: it
returns `NoProducerAvailable` when the producer set is empty, returns
`IncompatibleCapabilities` exactly when that first producer fails the
engine's predicate (even if a later producer would pass), and on success
registers a consumer referencing that first producer's identifier. -/
theorem c3_first_producer_policy :
    (∀ canC s m t caps ok tr, ¬m = "" →
      get2 s.matchTransports m t = some tr →
      (getL s.matchProducers m).getD [] = [] →
      consume canC s m t caps ok = (s, Resp.noProducerAvailable)) ∧
    (∀ canC s m t caps ok tr pid p rest, ¬m = "" →
      get2 s.matchTransports m t = some tr →
      (getL s.matchProducers m).getD [] = (pid, p) :: rest →
      (canC pid caps = false → consume canC s m t caps ok = (s, Resp.cannotConsume)) ∧
      (canC pid caps = true → tr.closed = false →
        (consume canC s m t caps true).2 = Resp.consumed s.nextId pid ∧
        get2 (consume canC s m t caps true).1.matchConsumers m s.nextId =
          some { transportId := t, producerId := pid, closed := false })) := by
  refine ⟨fun canC s m t caps ok tr hm h hp =>
            consume_noProducer canC s m t caps ok tr hm h hp,
          fun canC s m t caps ok tr pid p rest hm h hp =>
            ⟨fun hc => consume_incompatible canC s m t caps ok tr pid p rest hm h hp hc,
             fun hc hcl => ?_⟩⟩
  rw [consume_selects canC s m t caps tr pid p rest hm h hp hc hcl]
  constructor
  · rfl
  · dsimp only
    rw [get2_upd2, if_pos rfl, if_pos rfl]

/-- C3 witness: the amended theorem on `twoProducers` — a rejecting oracle
yields the incompatibility error; an accepting oracle selects producer 2, the
first in creation order. -/
theorem c3_witness :
    consume canCno twoProducers "m1" 1 0 true = (twoProducers, Resp.cannotConsume) ∧
    (consume canCyes twoProducers "m1" 1 0 true).2 = Resp.consumed 4 2 := by
  have h := c3_first_producer_policy
  exact ⟨(h.2 canCno twoProducers "m1" 1 0 true { closed := false } 2
            { transportId := 1, closed := false } [(3, { transportId := 1, closed := false })]
            (by decide) (by decide) (by decide)).1 (by decide),
         ((h.2 canCyes twoProducers "m1" 1 0 true { closed := false } 2
            { transportId := 1, closed := false } [(3, { transportId := 1, closed := false })]
            (by decide) (by decide) (by decide)).2 (by decide) (by decide)).1⟩

/-- C4 counterexample: producer 2 is registered in `demoState`; with the
engine close throwing (fail set contains 2), `close-producer` answers the 500
catch-block error and producer 2 is STILL registered afterwards — the
`delete` on line 190 sits after `producer.close()` inside the `try`, so a
throwing close skips removal, contradicting the claimed
always-remove-locally policy. -/
theorem c4_cex :
    (closeProducer demoState "m1" 2 [2]).2 = Resp.closeError ∧
    get2 (closeProducer demoState "m1" 2 [2]).1.matchProducers "m1" 2 =
      some { transportId := 1, closed := false } := by
  decide

/-- C4 amended: when the engine-level close throws during `closeProducer`,
`closeTransport` or `cleanupSession` on a registered resource, the local handle
is NOT removed: the operation answers the 500 close error and the registry
keeps the handle (for cleanup, the session's producer entry survives with only
the already-iterated prefix marked engine-closed); removal happens only after
a successful engine close. -/
theorem c4_close_failure_keeps_handle :
    (∀ s m pid fs p, ¬m = "" → get2 s.matchProducers m pid = some p → pid ∈ fs →
      closeProducer s m pid fs = (s, Resp.closeError)) ∧
    (∀ s m tid fs tr, ¬m = "" → get2 s.matchTransports m tid = some tr → tid ∈ fs →
      closeTransport s m tid fs = (s, Resp.closeError)) ∧
    (∀ s m fs inner, ¬m = "" → getL s.matchProducers m = some inner →
      (closeAll producerClosed fs inner).2 = false →
      (cleanupMatch s m fs).2 = Resp.closeError ∧
      getL (cleanupMatch s m fs).1.matchProducers m =
        some (closeAll producerClosed fs inner).1) := by
  refine ⟨fun s m pid fs p hm h hf => closeProducer_throw s m pid fs p hm h hf,
          fun s m tid fs tr hm h hf => closeTransport_throw s m tid fs tr hm h hf,
          fun s m fs inner hm hg hfail => ?_⟩
  unfold cleanupMatch
  rw [if_neg hm, hg]
  dsimp only
  rw [if_neg (show ¬(closeAll producerClosed fs inner).2 = true by
        rw [hfail]; exact Bool.false_ne_true)]
  constructor
  · rfl
  · dsimp only
    rw [getL_updL, if_pos rfl]

/-- C4 witness: the amended theorem on `demoState` with throwing closes. -/
theorem c4_witness :
    closeProducer demoState "m1" 2 [2] = (demoState, Resp.closeError) ∧
    closeTransport demoState "m1" 1 [1] = (demoState, Resp.closeError) ∧
    (cleanupMatch demoState "m1" [2]).2 = Resp.closeError := by
  have h := c4_close_failure_keeps_handle
  exact ⟨h.1 demoState "m1" 2 [2] { transportId := 1, closed := false }
           (by decide) (by decide) (by decide),
         h.2.1 demoState "m1" 1 [1] { closed := false } (by decide) (by decide) (by decide),
         (h.2.2 demoState "m1" [2] [(2, { transportId := 1, closed := false })]
           (by decide) (by decide) (by decide)).1⟩

/-- C5 counterexample: in `demoState` producer 2 is owned by transport 1; a
`close-transport` call whose engine close throws returns (with the 500 error)
while producer 2 is still registered and owned by transport 1 — so it is not
true that after `closeTransport` returns no producer owned by that transport
remains registered; the corollary only holds for successful closes. -/
theorem c5_cex :
    (closeTransport demoState "m1" 1 [1]).2 = Resp.closeError ∧
    get2 (closeTransport demoState "m1" 1 [1]).1.matchProducers "m1" 2 =
      some { transportId := 1, closed := false } := by
  decide

/-- C5 amended: in every state reachable from the initial state by the
coordinator's operations, a producer handle is present in a session's producer
registry only while its owning transport handle is present in that session's
transport registry and not engine-closed; and after `closeTransport` on a
REGISTERED transport returns SUCCESSFULLY, no producer or consumer owned by
that transport remains registered (when the engine close throws, the
operation errors and the transport with all its dependents remains,
preserving the invariant). -/
theorem c5_ownership_invariant :
    (∀ canC l m inner pid p,
      getL (exec canC initialState l).matchProducers m = some inner →
      (pid, p) ∈ inner →
      openIn (exec canC initialState l).matchTransports m p.transportId = true) ∧
    (∀ s m tid fs tr, get2 s.matchTransports m tid = some tr →
      (closeTransport s m tid fs).2 = Resp.success →
      noneOwnedBy (closeTransport s m tid fs).1 m tid = true) :=
  ⟨fun canC l => regInv_exec canC l initialState regInv_initial,
   closeTransport_success_noneOwned⟩

/-- C5 witness: the invariant evaluated after a create-transport and produce
run, and the successful-close corollary evaluated on `demoState`. -/
theorem c5_witness :
    openIn (exec canCyes initialState
        [Cmd.createT "m1" true, Cmd.produceR "m1" 1 true]).matchTransports "m1" 1 = true ∧
    noneOwnedBy (closeTransport demoState "m1" 1 []).1 "m1" 1 = true := by
  have h := c5_ownership_invariant
  exact ⟨h.1 canCyes [Cmd.createT "m1" true, Cmd.produceR "m1" 1 true] "m1"
           [(2, { transportId := 1, closed := false })] 2 { transportId := 1, closed := false }
           (by decide) (by decide),
         h.2 demoState "m1" 1 [] { closed := false } (by decide) (by decide)⟩

/-- C6 counterexample: with producer 2 registered in `demoState` and the
engine close throwing both times, the second identical `close-producer` call
answers the 500 error again (the claim demands no error on the second call);
and if the engine close instead succeeds on the retry, the second call removes
the handle — an observable state change relative to what the first call left.
-/
theorem c6_cex :
    (closeProducer demoState "m1" 2 [2]).2 = Resp.closeError ∧
    (closeProducer (closeProducer demoState "m1" 2 [2]).1 "m1" 2 [2]).2 = Resp.closeError ∧
    (closeProducer (closeProducer demoState "m1" 2 [2]).1 "m1" 2 []).1 ≠
      (closeProducer demoState "m1" 2 [2]).1 := by
  decide

/-- C6 amended: `closeProducer`, `closeTransport` and `cleanupSession` are
idempotent provided the first call returned success: the immediately repeated
call (with any engine close outcomes) then returns success and leaves the
registries exactly as the first call left them.  When the first call failed on
a throwing engine close, the handle remains and the repeated call retries the
engine close — it may error again or remove the handle. -/
theorem c6_close_idempotent_after_success :
    (∀ s m pid fs fs', (closeProducer s m pid fs).2 = Resp.success →
      closeProducer (closeProducer s m pid fs).1 m pid fs' =
        ((closeProducer s m pid fs).1, Resp.success)) ∧
    (∀ s m tid fs fs', (closeTransport s m tid fs).2 = Resp.success →
      closeTransport (closeTransport s m tid fs).1 m tid fs' =
        ((closeTransport s m tid fs).1, Resp.success)) ∧
    (∀ s m fs fs', (cleanupMatch s m fs).2 = Resp.success →
      cleanupMatch (cleanupMatch s m fs).1 m fs' =
        ((cleanupMatch s m fs).1, Resp.success)) :=
  ⟨closeProducer_idem, closeTransport_idem, cleanupMatch_idem⟩

/-- C6 witness: successful first calls on `demoState`, repeated. -/
theorem c6_witness :
    closeProducer (closeProducer demoState "m1" 2 []).1 "m1" 2 [] =
      ((closeProducer demoState "m1" 2 []).1, Resp.success) ∧
    closeTransport (closeTransport demoState "m1" 1 []).1 "m1" 1 [] =
      ((closeTransport demoState "m1" 1 []).1, Resp.success) ∧
    cleanupMatch (cleanupMatch demoState "m1" []).1 "m1" [] =
      ((cleanupMatch demoState "m1" []).1, Resp.success) := by
  have h := c6_close_idempotent_after_success
  exact ⟨h.1 demoState "m1" 2 [] [] (by decide),
         h.2.1 demoState "m1" 1 [] [] (by decide),
         h.2.2 demoState "m1" [] [] (by decide)⟩

/-- C7: `create-transport` fails with the missing-session-id 400 error for the
empty session identifier; when the engine's transport creation fails the whole
state — hence every registry — is exactly as before the call (no partial
registration); and a handle keyed by the fresh engine identifier is recorded
exactly when the engine call succeeds. -/
theorem c7_create_transport :
    (∀ s ok, createTransport s "" ok = (s, Resp.missingFields)) ∧
    (∀ s m, ¬m = "" → createTransport s m false = (s, Resp.engineError)) ∧
    (∀ s m, ¬m = "" →
      get2 (createTransport s m true).1.matchTransports m s.nextId =
        some { closed := false } ∧
      (createTransport s m true).2 = Resp.transportCreated s.nextId) := by
  refine ⟨fun s ok => createTransport_missing s ok,
          fun s m hm => createTransport_engineFail s m hm,
          fun s m hm => ?_⟩
  rw [createTransport_registers s m hm]
  constructor
  · dsimp only
    rw [get2_upd2, if_pos rfl, if_pos rfl]
  · rfl

/-- C7 witness: engine failure leaves `initialState` untouched; engine success
registers transport 1 under "m1". -/
theorem c7_witness :
    createTransport initialState "m1" false = (initialState, Resp.engineError) ∧
    get2 (createTransport initialState "m1" true).1.matchTransports "m1" 1 =
      some { closed := false } :=
  ⟨c7_create_transport.2.1 initialState "m1" (by decide),
   (c7_create_transport.2.2 initialState "m1" (by decide)).1⟩

/-- C8: `consume` fails with `TransportNotFound` when the named transport is
not registered for the session; with `NoProducerAvailable` when the session's
producer set is empty; and with the 400 incompatibility error when the
compatibility check rejects the selected pairing — the conclusion holds for
EVERY engine-negotiation outcome `ok`, showing the rejection happens before
the negotiation is attempted; and in every failure case (any response that is
not a successful consume) the state, hence the consumer registry, is exactly
as before the call. -/
theorem c8_consume_errors :
    (∀ canC s m t caps ok, ¬m = "" → get2 s.matchTransports m t = none →
      consume canC s m t caps ok = (s, Resp.transportNotFound)) ∧
    (∀ canC s m t caps ok tr, ¬m = "" → get2 s.matchTransports m t = some tr →
      (getL s.matchProducers m).getD [] = [] →
      consume canC s m t caps ok = (s, Resp.noProducerAvailable)) ∧
    (∀ canC s m t caps ok tr pid p rest, ¬m = "" → get2 s.matchTransports m t = some tr →
      (getL s.matchProducers m).getD [] = (pid, p) :: rest → canC pid caps = false →
      consume canC s m t caps ok = (s, Resp.cannotConsume)) ∧
    (∀ canC s m t caps ok, ((consume canC s m t caps ok).2).isConsumed = false →
      (consume canC s m t caps ok).1 = s) :=
  ⟨consume_notFound, consume_noProducer, consume_incompatible, consume_fail_frame⟩

/-- C8 witness: the three failure modes evaluated on concrete states. -/
theorem c8_witness :
    consume canCyes transportOnly "m1" 9 0 true = (transportOnly, Resp.transportNotFound) ∧
    consume canCyes transportOnly "m1" 1 0 true =
      (transportOnly, Resp.noProducerAvailable) ∧
    consume canCno twoProducers "m1" 1 0 true = (twoProducers, Resp.cannotConsume) ∧
    (consume canCno twoProducers "m1" 1 0 true).1 = twoProducers := by
  have h := c8_consume_errors
  exact ⟨h.1 canCyes transportOnly "m1" 9 0 true (by decide) (by decide),
         h.2.1 canCyes transportOnly "m1" 1 0 true { closed := false }
           (by decide) (by decide) (by decide),
         h.2.2.1 canCno twoProducers "m1" 1 0 true { closed := false } 2
           { transportId := 1, closed := false } [(3, { transportId := 1, closed := false })]
           (by decide) (by decide) (by decide) (by decide),
         h.2.2.2 canCno twoProducers "m1" 1 0 true (by decide)⟩

/-- C9: the status route is a pure read — it returns the state (all three
registries) unchanged — and reports `producerCount` equal to the number of
entries of the session's producer sub-registry, with the activity flag equal
to `some true` exactly when that count is positive. -/
theorem c9_stream_status (s : ServerState) (m : String) :
    (streamStatus s m).1 = s ∧
    ((streamStatus s m).2).reportedCount = ((getL s.matchProducers m).getD []).length ∧
    (((streamStatus s m).2).reportedActive = some true ↔
      0 < ((getL s.matchProducers m).getD []).length) := by
  refine ⟨streamStatus_fst s m, ?_, ?_⟩
  · unfold streamStatus
    cases hg : getL s.matchProducers m with
    | none => rfl
    | some inner =>
      by_cases hl : 0 < inner.length
      · simp [Resp.reportedCount, hl]
      · simp [Resp.reportedCount, hl]
        omega
  · unfold streamStatus
    cases hg : getL s.matchProducers m with
    | none => simp [Resp.reportedActive]
    | some inner =>
      by_cases hl : 0 < inner.length
      · simp [Resp.reportedActive, hl]
      · simp [Resp.reportedActive, hl]

/-- C10: for a session identifier with no entry in the producer registry
(never used, or cleaned up), the status route computes the activity flag as
the JavaScript `undefined` value rather than the Boolean `false` — modelled as
`none` — so the serialized JSON object omits the `isActive` field entirely
(`JSON.stringify` drops undefined-valued fields) while `producerCount` is 0. -/
theorem c10_status_undefined (s : ServerState) (m : String)
    (h : getL s.matchProducers m = none) :
    (streamStatus s m).2 = Resp.statusReport none 0 ∧
    serializeStatus ((streamStatus s m).2).reportedActive
        ((streamStatus s m).2).reportedCount = [("producerCount", "0")] := by
  unfold streamStatus
  rw [h]
  refine ⟨rfl, ?_⟩
  show serializeStatus none 0 = [("producerCount", "0")]
  decide

/-- C10 witness: the session just cleaned up in `demoState` has no producer
entry; its status response has an undefined activity flag and serializes to
the single field `producerCount`. -/
theorem c10_witness :
    (streamStatus (cleanupMatch demoState "m1" []).1 "m1").2 = Resp.statusReport none 0 ∧
    serializeStatus
        ((streamStatus (cleanupMatch demoState "m1" []).1 "m1").2).reportedActive
        ((streamStatus (cleanupMatch demoState "m1" []).1 "m1").2).reportedCount =
      [("producerCount", "0")] :=
  c10_status_undefined (cleanupMatch demoState "m1" []).1 "m1" (by decide)

end FootballStreaming
